import Mathlib

/-!
Shallow embedding of `sensors/STML0XX_MAG/sensors_p_c.cpp`
(the `sensors_poll_context_t` poll context of the Motorola msm8916-common
sensor HAL) and proofs about its dispatch, control and poll/drain logic.

Modelling conventions:
* C `int` / `int64_t` are modelled as `Int`; counts that are list lengths
  are coerced from `Nat` where needed.
* Each `SensorBase*` driver is an oracle record (`SensorModel`) giving the
  results of its virtual calls; an absent driver slot (allocation failure,
  `new(std::nothrow)` returned null) is `none`.
* Dereferencing a null driver slot is undefined behavior in the C++ code;
  the embedding models it as the `Option` result `none` ("crash"), while a
  normal return is `some`.
* Observable side effects of control calls (delegate invocations, bytes
  written to the wake pipe) are returned as an explicit `Effect` trace.
-/

/-- errno value EINVAL (22). -/
def EINVAL : Int := 22

/-- errno value EINTR (4). -/
def EINTR : Int := 4

/-- Modelled from the spec: the LogicalSensorId constants `ID_A`, `ID_L`,
`ID_DR`, `ID_P`, `ID_FU`, `ID_FD`, `ID_S`, `ID_CA`, `ID_A2`, `ID_M` are
defined in `sensors.h`, which is not part of the shown fragment. The spec
treats them as opaque, pairwise-distinct small integers (they appear as
distinct `case` labels of one `switch`, so they are necessarily pairwise
distinct); they are represented here as 0..9. -/
def ID_A : Int := 0

/-- sensors.h id constant (see `ID_A`). -/
def ID_L : Int := 1

/-- sensors.h id constant (see `ID_A`). -/
def ID_DR : Int := 2

/-- sensors.h id constant (see `ID_A`). -/
def ID_P : Int := 3

/-- sensors.h id constant (see `ID_A`). -/
def ID_FU : Int := 4

/-- sensors.h id constant (see `ID_A`). -/
def ID_FD : Int := 5

/-- sensors.h id constant (see `ID_A`). -/
def ID_S : Int := 6

/-- sensors.h id constant (see `ID_A`). -/
def ID_CA : Int := 7

/-- sensors.h id constant (see `ID_A`). -/
def ID_A2 : Int := 8

/-- sensors.h id constant for the AKM magnetometer (see `ID_A`). -/
def ID_M : Int := 9

/-- Driver slot index `accelgyromag = 0` (the sensor-hub driver),
from the private enum of `sensors_poll_context_t`. -/
def accelgyromag : Nat := 0

/-- Driver slot index `akm = 1` (the AKM fusion/orientation driver). -/
def akm : Nat := 1

/-- `numSensorDrivers = 2` from the private enum. -/
def numSensorDrivers : Nat := 2

/-- `numFds = 3` from the private enum. -/
def numFds : Nat := 3

/-- `wake = numFds - 1`: index of the wake-pipe read end in `mPollFds`. -/
def wake : Nat := numFds - 1

/-- `WAKE_MESSAGE = 'W'`: the wake-pipe sentinel byte. -/
def WAKE_MESSAGE : Char := 'W'

/-- An event record (`sensors_event_t`) is opaque to the poll context; it is
modelled as a bare tag. -/
abbrev Event := Nat

/-- Oracle model of one `SensorBase*` driver: the results of the virtual
calls the poll context makes on it. `readEvents c` returns the list of
records a `readEvents(data, c)` call stores (its return value `nb` is the
length of that list). -/
structure SensorModel where
  setEnable : Int → Int → Int
  setDelay : Int → Int → Int
  hasPendingEvents : Bool
  readEvents : Int → List Event
  flush : Int → Int

/-- One observable side effect of a control call: a virtual call delegated
to a driver slot, or one byte written to the wake pipe. -/
inductive Effect where
  | callSetEnable (drv : Nat) (handle enabled : Int)
  | callSetDelay (drv : Nat) (handle : Int) (ns : Int)
  | callFlush (drv : Nat) (handle : Int)
  | writeWake (c : Char)
  deriving DecidableEq

/-- Number of wake-pipe bytes in an effect trace. -/
def wakeWriteCount (effs : List Effect) : Nat :=
  effs.countP fun e =>
    match e with
    | .writeWake _ => true
    | _ => false

/-- The driver-slot state of a poll context: `sensors_poll_context_t`'s
constructor tries `new(std::nothrow)` for `HubSensor` (slot `accelgyromag`)
and `AkmSensor` (slot `akm`); a failed allocation is logged and leaves the
slot null, and construction continues. `mkPollContext ho ha` is the
`mSensors` array that results when the two allocations produce `ho` and
`ha`. -/
def mkPollContext (ho ha : Option SensorModel) : Nat → Option SensorModel :=
  fun i => if i = accelgyromag then ho else if i = akm then ha else none

/-- `sensors_poll_context_t::handleToDriver`: the switch mapping a logical
sensor handle to the owning driver slot, `-EINVAL` for any other handle. -/
def handleToDriver (handle : Int) : Int :=
  if handle = ID_A ∨ handle = ID_L ∨ handle = ID_DR ∨ handle = ID_P ∨
     handle = ID_FU ∨ handle = ID_FD ∨ handle = ID_S ∨ handle = ID_CA ∨
     handle = ID_A2 then (accelgyromag : Int)
  else if handle = ID_M then (akm : Int)
  else -EINVAL

/-- The set of handles `handleToDriver` recognizes (the ten case labels). -/
def isRecognized (handle : Int) : Bool :=
  handle == ID_A || handle == ID_L || handle == ID_DR || handle == ID_P ||
  handle == ID_FU || handle == ID_FD || handle == ID_S || handle == ID_CA ||
  handle == ID_A2 || handle == ID_M

/-- `sensors_poll_context_t::activate`: resolves the handle, returns
`-EINVAL` if unresolved, otherwise calls `mSensors[drv]->setEnable` (a null
dereference — modelled as `none` — when the slot is absent); if the handle
is `ID_M`, `enabled` is truthy and `setEnable` returned 0, writes one
`WAKE_MESSAGE` byte to the wake pipe; returns the delegate's result together
with the effect trace. -/
def activate (sensors : Nat → Option SensorModel) (handle enabled : Int) :
    Option (Int × List Effect) :=
  let drv := handleToDriver handle
  if drv < 0 then some (-EINVAL, [])
  else
    match sensors drv.toNat with
    | none => none
    | some s =>
      let err := s.setEnable handle enabled
      if handle = ID_M ∧ enabled ≠ 0 ∧ err = 0 then
        some (err, [Effect.callSetEnable drv.toNat handle enabled,
                    Effect.writeWake WAKE_MESSAGE])
      else
        some (err, [Effect.callSetEnable drv.toNat handle enabled])

/-- `sensors_poll_context_t::setDelay`: resolves the handle, returns
`-EINVAL` if unresolved, otherwise delegates to `mSensors[drv]->setDelay`
(a null dereference — modelled as `none` — when the slot is absent) and
returns its result. -/
def setDelay (sensors : Nat → Option SensorModel) (handle ns : Int) :
    Option (Int × List Effect) :=
  let drv := handleToDriver handle
  if drv < 0 then some (-EINVAL, [])
  else
    match sensors drv.toNat with
    | none => none
    | some s => some (s.setDelay handle ns, [Effect.callSetDelay drv.toNat handle ns])

/-- `sensors_poll_context_t::batch`: discards `flags` and `timeout` and
returns `setDelay(handle, ns)`. -/
def batch (sensors : Nat → Option SensorModel) (handle flags ns timeout : Int) :
    Option (Int × List Effect) :=
  setDelay sensors handle ns

/-- `sensors_poll_context_t::flush`: always delegates to
`mSensors[accelgyromag]->flush(handle)` (a null dereference — modelled as
`none` — when the hub slot is absent), whatever the handle. -/
def flush (sensors : Nat → Option SensorModel) (handle : Int) :
    Option (Int × List Effect) :=
  match sensors accelgyromag with
  | none => none
  | some s => some (s.flush handle, [Effect.callFlush accelgyromag handle])

/-- Outcome of one `poll()` call, as seen by `pollEvents`: either success
(`ret >= 0`) with the `revents` readiness of every index in `mPollFds`
(POLLIN marked or not), or failure with the resulting `errno`. -/
inductive PollResult where
  | ok (revents : Nat → Bool)
  | fail (errno : Int)

/-- Whether a `poll()` call succeeded. -/
def PollResult.isOk : PollResult → Bool
  | .ok _ => true
  | .fail _ => false

/-- The timeout argument of `poll(mPollFds, numFds, nbEvents ? 0 : -1)`:
`-1` (block forever) when no events have been collected yet in this call,
`0` (non-blocking) otherwise. -/
def pollTimeout (nbEvents : Int) : Int :=
  if nbEvents = 0 then -1 else 0

/-- One recorded `poll()` call of a `pollEvents` run: how many events had
been collected in the call when it was issued, the timeout it was given,
and the result the OS returned. -/
structure WaitCall where
  eventsCollected : Int
  timeout : Int
  result : PollResult

/-- How the `while (true)` wait loop of `pollEvents` ends: a successful
`poll` with some readiness, a non-EINTR failure (the call returns `-err`),
or — if the oracle list runs out — the call is still blocked in `poll`. -/
inductive WaitExit where
  | ready (revents : Nat → Bool)
  | fatal (code : Int)
  | exhausted

/-- The `while (true) { ret = poll(...); ... }` loop of `pollEvents`:
issues `poll` calls with timeout `pollTimeout nbEvents`, breaking on
success, retrying on `EINTR`, and returning `-err` on any other failure.
The oracle list supplies successive `poll` outcomes; the recorded
`WaitCall`s and the loop's exit are returned. -/
def waitLoop (nbEvents : Int) : List PollResult → List WaitCall × WaitExit
  | [] => ([], .exhausted)
  | .ok r :: _ => ([⟨nbEvents, pollTimeout nbEvents, .ok r⟩], .ready r)
  | .fail e :: rest =>
    if e = EINTR then
      (⟨nbEvents, pollTimeout nbEvents, .fail e⟩ :: (waitLoop nbEvents rest).1,
       (waitLoop nbEvents rest).2)
    else
      ([⟨nbEvents, pollTimeout nbEvents, .fail e⟩], .fatal (-e))

/-- Result of the `for (int i=0 ; count && i<numSensorDrivers ; i++)` drain
loop of `pollEvents`: the records written to the output buffer (in order),
the slots whose loop body was entered (each with the remaining capacity at
that point), the `readEvents` calls issued (slot and capacity passed), the
remaining capacity at exit, and whether a null driver slot was dereferenced
(`crashed`). -/
structure DrainOut where
  buffer : List Event
  consulted : List (Nat × Int)
  drainCalls : List (Nat × Int)
  remaining : Int
  crashed : Bool

/-- The drain loop of `pollEvents` over the listed slot indices: stops when
`count` reaches 0; for each slot, if its `revents` has POLLIN or the driver
reports pending events, calls `readEvents` with the remaining capacity and
advances by the number of records produced. Entering the body of a slot
whose driver is absent dereferences null (`crashed`): the condition itself
calls `hasPendingEvents()` when POLLIN is clear, and `readEvents` when it
is set. -/
def drainLoop (sensors : Nat → Option SensorModel) (revents : Nat → Bool) :
    List Nat → Int → DrainOut
  | [], count => ⟨[], [], [], count, false⟩
  | i :: rest, count =>
    if count = 0 then ⟨[], [], [], count, false⟩
    else
      match sensors i with
      | none => ⟨[], [(i, count)], [], count, true⟩
      | some s =>
        if revents i || s.hasPendingEvents then
          let recs := s.readEvents count
          let tail := drainLoop sensors revents rest (count - (recs.length : Int))
          ⟨recs ++ tail.buffer, (i, count) :: tail.consulted,
           (i, count) :: tail.drainCalls, tail.remaining, tail.crashed⟩
        else
          let tail := drainLoop sensors revents rest count
          ⟨tail.buffer, (i, count) :: tail.consulted, tail.drainCalls,
           tail.remaining, tail.crashed⟩

/-- How a `pollEvents` call ends: a normal return (the event count, or a
negative error code from a fatal `poll` failure), a null-driver dereference
(`crashed`), or still blocked in `poll` (oracle exhausted). -/
inductive Outcome where
  | returned (v : Int)
  | crashed
  | blocked
  deriving DecidableEq

/-- Full record of one `pollEvents` run. -/
structure PollEventsRun where
  waits : List WaitCall
  consulted : List (Nat × Int)
  drainCalls : List (Nat × Int)
  buffer : List Event
  wakeReads : Nat
  outcome : Outcome

/-- `sensors_poll_context_t::pollEvents`: runs the wait loop (with
`nbEvents = 0`, its initial value — no wait ever happens after the drain
loop in this function), then drains the driver slots in index order
(`accelgyromag` before `akm`) bounded by `count`, then, if the wake pipe is
ready, reads one byte from it. Returns the number of records written, or
`-err` on a fatal `poll` failure. `oracle` supplies the `poll` outcomes. -/
def pollEvents (sensors : Nat → Option SensorModel) (oracle : List PollResult)
    (count : Int) : PollEventsRun :=
  let ws := (waitLoop 0 oracle).1
  match (waitLoop 0 oracle).2 with
  | .exhausted => ⟨ws, [], [], [], 0, .blocked⟩
  | .fatal c => ⟨ws, [], [], [], 0, .returned c⟩
  | .ready r =>
    let d := drainLoop sensors r (List.range numSensorDrivers) count
    if d.crashed then ⟨ws, d.consulted, d.drainCalls, d.buffer, 0, .crashed⟩
    else
      let wr := if r wake then 1 else 0
      ⟨ws, d.consulted, d.drainCalls, d.buffer, wr,
       .returned (d.buffer.length : Int)⟩

/-- A concrete hub driver used to instantiate hypothesis-bearing theorems:
returns success everywhere, no pending events, and one record (tag 100)
whenever given capacity at least 1. -/
def demoHub : SensorModel where
  setEnable := fun _ _ => 0
  setDelay := fun _ _ => 0
  hasPendingEvents := false
  readEvents := fun c => if 1 ≤ c then [100] else []
  flush := fun _ => 0

/-- A concrete AKM driver used to instantiate hypothesis-bearing theorems
(one record, tag 200, whenever given capacity at least 1). -/
def demoAkm : SensorModel where
  setEnable := fun _ _ => 0
  setDelay := fun _ _ => 0
  hasPendingEvents := false
  readEvents := fun c => if 1 ≤ c then [200] else []
  flush := fun _ => 0

/-- A poll context in which both driver allocations succeeded. -/
def demoCtx : Nat → Option SensorModel :=
  mkPollContext (some demoHub) (some demoAkm)

/-- A poll context in which the `AkmSensor` allocation failed (its slot is
null). -/
def ctxNoAkm : Nat → Option SensorModel :=
  mkPollContext (some demoHub) none

/-- A `poll` readiness in which every index of `mPollFds` has POLLIN. -/
def demoReady : Nat → Bool := fun _ => true

/-- Resolution behavior of the dispatch switch, case by case: a recognized
non-`ID_M` handle goes to the hub slot, `ID_M` to the AKM slot, and an
unrecognized handle to `-EINVAL`. -/
theorem handleToDriver_spec (h : Int) :
    (isRecognized h = true ∧ h ≠ ID_M ∧ handleToDriver h = (accelgyromag : Int)) ∨
    (h = ID_M ∧ handleToDriver h = (akm : Int)) ∨
    (isRecognized h = false ∧ handleToDriver h = -EINVAL) := by
  by_cases h0 : h = ID_A
  · exact Or.inl (by subst h0; exact ⟨by decide, by decide, by decide⟩)
  by_cases h1 : h = ID_L
  · exact Or.inl (by subst h1; exact ⟨by decide, by decide, by decide⟩)
  by_cases h2 : h = ID_DR
  · exact Or.inl (by subst h2; exact ⟨by decide, by decide, by decide⟩)
  by_cases h3 : h = ID_P
  · exact Or.inl (by subst h3; exact ⟨by decide, by decide, by decide⟩)
  by_cases h4 : h = ID_FU
  · exact Or.inl (by subst h4; exact ⟨by decide, by decide, by decide⟩)
  by_cases h5 : h = ID_FD
  · exact Or.inl (by subst h5; exact ⟨by decide, by decide, by decide⟩)
  by_cases h6 : h = ID_S
  · exact Or.inl (by subst h6; exact ⟨by decide, by decide, by decide⟩)
  by_cases h7 : h = ID_CA
  · exact Or.inl (by subst h7; exact ⟨by decide, by decide, by decide⟩)
  by_cases h8 : h = ID_A2
  · exact Or.inl (by subst h8; exact ⟨by decide, by decide, by decide⟩)
  by_cases h9 : h = ID_M
  · exact Or.inr (Or.inl ⟨h9, by subst h9; decide⟩)
  · refine Or.inr (Or.inr ⟨?_, ?_⟩)
    · simp [isRecognized, h0, h1, h2, h3, h4, h5, h6, h7, h8, h9]
    · simp [handleToDriver, h0, h1, h2, h3, h4, h5, h6, h7, h8, h9]

/-- An unrecognized handle resolves to `-EINVAL`. -/
theorem handleToDriver_of_not_recognized (h : Int)
    (hr : isRecognized h = false) : handleToDriver h = -EINVAL := by
  rcases handleToDriver_spec h with ⟨hrec, _, _⟩ | ⟨hm, _⟩ | ⟨_, he⟩
  · rw [hrec] at hr; exact absurd hr (by decide)
  · subst hm; exact absurd hr (by decide)
  · exact he

/-- C4: `handleToDriver` is a total pure function forming a non-overlapping
partition of the recognized handles: every recognized handle resolves to
exactly one of the two driver slots, `ID_M` to the AKM (fusion/orientation)
slot, every other recognized handle to the hub slot, the two slots are
distinct, and every unrecognized handle yields `-EINVAL`. -/
theorem handleToDriver_partition :
    (∀ h : Int, isRecognized h = true →
        handleToDriver h = (accelgyromag : Int) ∨ handleToDriver h = (akm : Int)) ∧
    handleToDriver ID_M = (akm : Int) ∧
    (∀ h : Int, isRecognized h = true → h ≠ ID_M →
        handleToDriver h = (accelgyromag : Int)) ∧
    (∀ h : Int, isRecognized h = false → handleToDriver h = -EINVAL) ∧
    (accelgyromag : Int) ≠ (akm : Int) := by
  refine ⟨?_, by decide, ?_, fun h hr => handleToDriver_of_not_recognized h hr, by decide⟩
  · intro h hr
    rcases handleToDriver_spec h with ⟨_, _, he⟩ | ⟨_, he⟩ | ⟨hf, _⟩
    · exact Or.inl he
    · exact Or.inr he
    · rw [hf] at hr; exact absurd hr (by decide)
  · intro h hr hne
    rcases handleToDriver_spec h with ⟨_, _, he⟩ | ⟨hm, _⟩ | ⟨hf, _⟩
    · exact he
    · exact absurd hm hne
    · rw [hf] at hr; exact absurd hr (by decide)

/-- C4 witness: instantiation at the recognized handle `ID_L`. -/
theorem handleToDriver_partition_witness :
    handleToDriver ID_L = (accelgyromag : Int) ∨ handleToDriver ID_L = (akm : Int) :=
  handleToDriver_partition.1 ID_L (by decide)

/-- C10: for every handle the dispatch switch does not recognize, both
`activate` and `setDelay` return `-EINVAL` with an empty effect trace: no
driver delegate is invoked and no byte is written to the wake pipe. -/
theorem unrecognized_control_inert (sensors : Nat → Option SensorModel)
    (handle : Int) (hu : isRecognized handle = false) (enabled ns : Int) :
    activate sensors handle enabled = some (-EINVAL, []) ∧
    setDelay sensors handle ns = some (-EINVAL, []) := by
  have hd : handleToDriver handle = -EINVAL := handleToDriver_of_not_recognized handle hu
  constructor
  · simp only [activate, hd]
    norm_num [EINVAL]
  · simp only [setDelay, hd]
    norm_num [EINVAL]

/-- C10 witness: the unrecognized handle 999 on a fully constructed
context. -/
theorem unrecognized_control_inert_witness :
    activate demoCtx 999 1 = some (-EINVAL, []) ∧
    setDelay demoCtx 999 5 = some (-EINVAL, []) :=
  unrecognized_control_inert demoCtx 999 (by decide) 1 5

/-- C8: `batch` discards `flags` and `timeout` and is definitionally the
call `setDelay(handle, ns)`: same return value and the same effect trace,
for every argument. -/
theorem batch_refines_setDelay (sensors : Nat → Option SensorModel)
    (handle flags ns timeout : Int) :
    batch sensors handle flags ns timeout = setDelay sensors handle ns := rfl

/-- C9: for every handle, `flush` delegates to the hub slot's `flush` with
the requested handle and returns its result verbatim; the effect trace is
exactly one hub `flush` call — the AKM (fusion) slot is never consulted —
whatever slot owns the handle. -/
theorem flush_always_hub (hub : SensorModel) (a : Option SensorModel) (handle : Int) :
    flush (mkPollContext (some hub) a) handle =
      some (hub.flush handle, [Effect.callFlush accelgyromag handle]) := by
  simp [flush, mkPollContext]

/-- `activate` when the handle does not resolve: early `-EINVAL` return
with no effects. -/
theorem activate_unresolved (sensors : Nat → Option SensorModel)
    (handle enabled : Int) (hd : handleToDriver handle < 0) :
    activate sensors handle enabled = some (-EINVAL, []) := by
  simp only [activate]
  rw [if_pos hd]

/-- `activate` when the handle resolves and the owning slot is live:
delegates to `setEnable` and appends the wake byte exactly under the
`ID_M`-enable-success condition. -/
theorem activate_resolved (sensors : Nat → Option SensorModel) (s : SensorModel)
    (handle enabled : Int) (hd : 0 ≤ handleToDriver handle)
    (hs : sensors (handleToDriver handle).toNat = some s) :
    activate sensors handle enabled =
      if handle = ID_M ∧ enabled ≠ 0 ∧ s.setEnable handle enabled = 0 then
        some (s.setEnable handle enabled,
          [Effect.callSetEnable (handleToDriver handle).toNat handle enabled,
           Effect.writeWake WAKE_MESSAGE])
      else
        some (s.setEnable handle enabled,
          [Effect.callSetEnable (handleToDriver handle).toNat handle enabled]) := by
  simp only [activate]
  rw [if_neg (by omega), hs]

/-- C3: for every `activate(handle, enabled)` call on a fully constructed
context, the wake pipe receives exactly one byte if and only if the handle
is `ID_M`, `enabled` is truthy, and the delegated `setEnable` returned 0;
otherwise (delegate failure, disable, other or unrecognized handle) zero
bytes are written; and the returned value is the owning delegate's result
(`-EINVAL` when unresolved). -/
theorem activate_wake_byte (hub akmS : SensorModel) (handle enabled : Int) :
    ∃ ret effs,
      activate (mkPollContext (some hub) (some akmS)) handle enabled = some (ret, effs) ∧
      wakeWriteCount effs = (if handle = ID_M ∧ enabled ≠ 0 ∧ ret = 0 then 1 else 0) ∧
      (handleToDriver handle = (accelgyromag : Int) → ret = hub.setEnable handle enabled) ∧
      (handleToDriver handle = (akm : Int) → ret = akmS.setEnable handle enabled) ∧
      (handleToDriver handle = -EINVAL → ret = -EINVAL) := by
  rcases handleToDriver_spec handle with ⟨_, hne, hd⟩ | ⟨hm, hd⟩ | ⟨_, hd⟩
  · -- hub-owned handle, never ID_M: no wake byte
    have hres := activate_resolved (mkPollContext (some hub) (some akmS)) hub handle enabled
      (by rw [hd]; positivity)
      (by rw [hd]; simp [mkPollContext, accelgyromag])
    rw [if_neg (fun hc => hne hc.1)] at hres
    refine ⟨hub.setEnable handle enabled, _, hres, ?_, fun _ => rfl, ?_, ?_⟩
    · rw [if_neg (fun hc => hne hc.1)]
      rfl
    · intro hak; rw [hd] at hak; exact absurd hak (by decide)
    · intro hE; rw [hd] at hE; exact absurd hE (by decide)
  · -- ID_M: wake byte exactly when enabling succeeded
    subst hm
    have hres := activate_resolved (mkPollContext (some hub) (some akmS)) akmS ID_M enabled
      (by rw [hd]; positivity)
      (by rw [hd]; simp [mkPollContext, accelgyromag, akm])
    by_cases hc : enabled ≠ 0 ∧ akmS.setEnable ID_M enabled = 0
    · rw [if_pos ⟨rfl, hc.1, hc.2⟩] at hres
      refine ⟨akmS.setEnable ID_M enabled, _, hres, ?_, ?_, fun _ => rfl, ?_⟩
      · rw [if_pos ⟨rfl, hc.1, hc.2⟩]
        rfl
      · intro hhub; rw [hd] at hhub; exact absurd hhub (by decide)
      · intro hE; rw [hd] at hE; exact absurd hE (by decide)
    · rw [if_neg (fun hx => hc ⟨hx.2.1, hx.2.2⟩)] at hres
      refine ⟨akmS.setEnable ID_M enabled, _, hres, ?_, ?_, fun _ => rfl, ?_⟩
      · rw [if_neg (fun hx => hc ⟨hx.2.1, hx.2.2⟩)]
        rfl
      · intro hhub; rw [hd] at hhub; exact absurd hhub (by decide)
      · intro hE; rw [hd] at hE; exact absurd hE (by decide)
  · -- unrecognized handle: -EINVAL, no effects at all
    refine ⟨-EINVAL, [], activate_unresolved _ handle enabled (by rw [hd]; decide), ?_, ?_, ?_, fun _ => rfl⟩
    · rw [if_neg (fun hc => absurd hc.2.2 (by decide))]
      rfl
    · intro hhub; rw [hd] at hhub; exact absurd hhub (by decide)
    · intro hak; rw [hd] at hak; exact absurd hak (by decide)

/-- Every `poll` call the wait loop records was issued with the loop's
event counter and the timeout `pollTimeout` derives from it. -/
theorem waitLoop_waits (nb : Int) (oracle : List PollResult) :
    ∀ w ∈ (waitLoop nb oracle).1,
      w.eventsCollected = nb ∧ w.timeout = pollTimeout nb := by
  induction oracle with
  | nil => intro w hw; simp [waitLoop] at hw
  | cons head rest ih =>
    cases head with
    | ok r =>
      intro w hw
      simp only [waitLoop, List.mem_singleton] at hw
      subst hw; exact ⟨rfl, rfl⟩
    | fail e =>
      intro w hw
      by_cases he : e = EINTR
      · rw [waitLoop, if_pos he] at hw
        rcases List.mem_cons.mp hw with hw | hw
        · subst hw; exact ⟨rfl, rfl⟩
        · exact ih w hw
      · rw [waitLoop, if_neg he] at hw
        rw [List.mem_singleton] at hw
        subst hw; exact ⟨rfl, rfl⟩

/-- The recorded waits of a `pollEvents` run are exactly those of its wait
loop (run with `nbEvents = 0`). -/
theorem pollEvents_waits (sensors : Nat → Option SensorModel)
    (oracle : List PollResult) (count : Int) :
    (pollEvents sensors oracle count).waits = (waitLoop 0 oracle).1 := by
  unfold pollEvents
  cases (waitLoop 0 oracle).2 with
  | exhausted => rfl
  | fatal c => rfl
  | ready r =>
    simp only []
    split <;> rfl

/-- C2: within a single `pollEvents` call, every `poll` wait issued while
no events have yet been collected in that call uses the infinite timeout
(-1), and every wait issued after at least one event has been collected
uses the zero (non-blocking) timeout. -/
theorem wait_timeout_rule (sensors : Nat → Option SensorModel)
    (oracle : List PollResult) (count : Int) :
    ∀ w ∈ (pollEvents sensors oracle count).waits,
      (w.eventsCollected = 0 → w.timeout = -1) ∧
      (w.eventsCollected ≠ 0 → w.timeout = 0) := by
  intro w hw
  rw [pollEvents_waits] at hw
  obtain ⟨hnb, ht⟩ := waitLoop_waits 0 oracle w hw
  constructor
  · intro _
    rw [ht]
    rfl
  · intro hne
    exact absurd hnb hne

/-- C2 witness: the single wait of a one-success run on the demo context. -/
theorem wait_timeout_rule_witness :
    ((⟨0, -1, PollResult.ok demoReady⟩ : WaitCall).eventsCollected = 0 →
      (⟨0, -1, PollResult.ok demoReady⟩ : WaitCall).timeout = -1) ∧
    ((⟨0, -1, PollResult.ok demoReady⟩ : WaitCall).eventsCollected ≠ 0 →
      (⟨0, -1, PollResult.ok demoReady⟩ : WaitCall).timeout = 0) :=
  wait_timeout_rule demoCtx [PollResult.ok demoReady] 3
    ⟨0, -1, PollResult.ok demoReady⟩
    (by rw [pollEvents_waits]; exact List.mem_singleton.mpr rfl)

/-- The wait loop on an oracle made of EINTR failures followed by a
success: one recorded wait per EINTR retry plus the final successful wait,
exiting ready. -/
theorem waitLoop_eintr (nb : Int) (pre : List PollResult) (r : Nat → Bool)
    (rest : List PollResult)
    (hpre : ∀ e ∈ pre, e = PollResult.fail EINTR) :
    waitLoop nb (pre ++ PollResult.ok r :: rest) =
      (pre.map (fun _ => ⟨nb, pollTimeout nb, PollResult.fail EINTR⟩) ++
        [⟨nb, pollTimeout nb, PollResult.ok r⟩], WaitExit.ready r) := by
  induction pre with
  | nil => simp [waitLoop]
  | cons e tl ih =>
    have he : e = PollResult.fail EINTR := hpre e (by simp)
    subst he
    have htl := ih (fun x hx => hpre x (by simp [hx]))
    rw [List.cons_append, waitLoop, if_pos rfl, htl]
    simp

/-- C7: `pollEvents` with capacity 0, when the wait loop is interrupted
some number of times and then succeeds, returns 0, records exactly one
successful `poll` call, and enters no driver slot (no `hasPendingEvents`
consultation, no `readEvents` drain). -/
theorem pollEvents_zero_capacity (sensors : Nat → Option SensorModel)
    (pre : List PollResult) (r : Nat → Bool) (rest : List PollResult)
    (hpre : ∀ e ∈ pre, e = PollResult.fail EINTR) :
    (pollEvents sensors (pre ++ PollResult.ok r :: rest) 0).outcome =
        Outcome.returned 0 ∧
    (pollEvents sensors (pre ++ PollResult.ok r :: rest) 0).consulted = [] ∧
    (pollEvents sensors (pre ++ PollResult.ok r :: rest) 0).drainCalls = [] ∧
    ((pollEvents sensors (pre ++ PollResult.ok r :: rest) 0).waits.countP
        fun w => w.result.isOk) = 1 := by
  have hw := waitLoop_eintr 0 pre r rest hpre
  refine ⟨?_, ?_, ?_, ?_⟩ <;>
    simp [pollEvents, hw, drainLoop, numSensorDrivers, List.countP_append,
      List.countP_map, List.countP_cons, PollResult.isOk, Function.comp]

/-- C7 witness: one EINTR retry then a fully ready `poll` on the demo
context, capacity 0. -/
theorem pollEvents_zero_capacity_witness :
    (pollEvents demoCtx ([PollResult.fail EINTR] ++ PollResult.ok demoReady :: []) 0).outcome =
        Outcome.returned 0 ∧
    (pollEvents demoCtx ([PollResult.fail EINTR] ++ PollResult.ok demoReady :: []) 0).consulted = [] ∧
    (pollEvents demoCtx ([PollResult.fail EINTR] ++ PollResult.ok demoReady :: []) 0).drainCalls = [] ∧
    ((pollEvents demoCtx ([PollResult.fail EINTR] ++ PollResult.ok demoReady :: []) 0).waits.countP
        fun w => w.result.isOk) = 1 :=
  pollEvents_zero_capacity demoCtx [PollResult.fail EINTR] demoReady []
    (fun e he => List.mem_singleton.mp he)

/-- C5: in a single `pollEvents` call whose `poll` reports both driver
slots ready, the output buffer is the hub slot's drained records followed
by the AKM (fusion) slot's drained records — each in the order its
`readEvents` produced them — the fusion part being empty when the hub
drain exhausted the capacity. -/
theorem hub_before_fusion (hub akmS : SensorModel) (r : Nat → Bool) (count : Int)
    (hr0 : r accelgyromag = true) (hr1 : r akm = true) (hc : count ≠ 0) :
    (pollEvents (mkPollContext (some hub) (some akmS)) [PollResult.ok r] count).buffer =
      hub.readEvents count ++
        (if count - ((hub.readEvents count).length : Int) = 0 then []
         else akmS.readEvents (count - ((hub.readEvents count).length : Int))) := by
  have hrange : List.range numSensorDrivers = [0, 1] := rfl
  by_cases hrem : count - ((hub.readEvents count).length : Int) = 0 <;>
    simp only [pollEvents, waitLoop, drainLoop, hrange, mkPollContext,
      accelgyromag, akm] at * <;>
    simp [drainLoop, hc, hr0, hr1, hrem, accelgyromag, akm]

/-- C5 witness: demo drivers (one record each), full readiness,
capacity 3. -/
theorem hub_before_fusion_witness :
    (pollEvents (mkPollContext (some demoHub) (some demoAkm)) [PollResult.ok demoReady] 3).buffer =
      demoHub.readEvents 3 ++
        (if (3 : Int) - ((demoHub.readEvents 3).length : Int) = 0 then []
         else demoAkm.readEvents ((3 : Int) - ((demoHub.readEvents 3).length : Int))) :=
  hub_before_fusion demoHub demoAkm demoReady 3 rfl rfl (by decide)

/-- Accounting identity of the drain loop: records produced plus remaining
capacity equals the capacity it started with. -/
theorem drainLoop_length_add_remaining (sensors : Nat → Option SensorModel)
    (revents : Nat → Bool) (l : List Nat) (count : Int) :
    ((drainLoop sensors revents l count).buffer.length : Int) +
      (drainLoop sensors revents l count).remaining = count := by
  induction l generalizing count with
  | nil => simp [drainLoop]
  | cons i rest ih =>
    by_cases hz : count = 0
    · simp [drainLoop, hz]
    · rw [drainLoop, if_neg hz]
      cases hs : sensors i with
      | none => simp
      | some s =>
        by_cases hrdy : revents i || s.hasPendingEvents
        · have := ih (count - ((s.readEvents count).length : Int))
          simp only [hrdy, if_true, List.length_append]
          push_cast
          push_cast at this
          omega
        · simp only [hrdy, if_false]
          exact ih count

/-- If every `readEvents` call produces at most the capacity it is given,
the drain loop's remaining capacity never becomes negative. -/
theorem drainLoop_remaining_nonneg (sensors : Nat → Option SensorModel)
    (revents : Nat → Bool) (l : List Nat) (count : Int) (h0 : 0 ≤ count)
    (hread : ∀ i s, sensors i = some s → ∀ c : Int, 0 ≤ c →
      ((s.readEvents c).length : Int) ≤ c) :
    0 ≤ (drainLoop sensors revents l count).remaining := by
  induction l generalizing count with
  | nil => simpa [drainLoop] using h0
  | cons i rest ih =>
    by_cases hz : count = 0
    · simp [drainLoop, hz]
    · rw [drainLoop, if_neg hz]
      cases hs : sensors i with
      | none => simpa using h0
      | some s =>
        by_cases hrdy : revents i || s.hasPendingEvents
        · simp only [hrdy, if_true]
          exact ih _ (by have := hread i s hs count h0; omega)
        · simp only [hrdy, if_false]
          exact ih count h0

/-- Every slot the drain loop actually enters is entered with nonzero
remaining capacity (the loop guard `count && i < numSensorDrivers`). -/
theorem drainLoop_consulted_nonzero (sensors : Nat → Option SensorModel)
    (revents : Nat → Bool) (l : List Nat) (count : Int) :
    ∀ p ∈ (drainLoop sensors revents l count).consulted, p.2 ≠ 0 := by
  induction l generalizing count with
  | nil => simp [drainLoop]
  | cons i rest ih =>
    by_cases hz : count = 0
    · simp [drainLoop, hz]
    · rw [drainLoop, if_neg hz]
      cases hs : sensors i with
      | none => simpa using hz
      | some s =>
        by_cases hrdy : revents i || s.hasPendingEvents
        · simp only [hrdy, if_true]
          intro p hp
          rcases List.mem_cons.mp hp with hp | hp
          · subst hp; exact hz
          · exact ih _ p hp
        · simp only [hrdy, if_false]
          intro p hp
          rcases List.mem_cons.mp hp with hp | hp
          · subst hp; exact hz
          · exact ih count p hp

/-- The buffer, consulted and drain-call fields of a `pollEvents` run:
empty unless the wait loop exited ready, in which case they are the drain
loop's. -/
theorem pollEvents_drain_fields (sensors : Nat → Option SensorModel)
    (oracle : List PollResult) (count : Int) :
    ((pollEvents sensors oracle count).buffer = [] ∧
     (pollEvents sensors oracle count).consulted = []) ∨
    (∃ r, (waitLoop 0 oracle).2 = WaitExit.ready r ∧
      (pollEvents sensors oracle count).buffer =
        (drainLoop sensors r (List.range numSensorDrivers) count).buffer ∧
      (pollEvents sensors oracle count).consulted =
        (drainLoop sensors r (List.range numSensorDrivers) count).consulted) := by
  unfold pollEvents
  cases hx : (waitLoop 0 oracle).2 with
  | exhausted => exact Or.inl ⟨rfl, rfl⟩
  | fatal c => exact Or.inl ⟨rfl, rfl⟩
  | ready r =>
    refine Or.inr ⟨r, rfl, ?_⟩
    simp only []
    split <;> exact ⟨rfl, rfl⟩

/-- C6: assuming each live driver's `readEvents` never produces more
records than the capacity it is handed, a `pollEvents` call with
nonnegative capacity writes at most `count` records, and every slot the
drain loop enters is entered with nonzero remaining capacity (once the
remaining capacity reaches zero no further slot is consulted or
drained). -/
theorem pollEvents_capacity_bound (sensors : Nat → Option SensorModel)
    (oracle : List PollResult) (count : Int) (h0 : 0 ≤ count)
    (hread : ∀ i s, sensors i = some s → ∀ c : Int, 0 ≤ c →
      ((s.readEvents c).length : Int) ≤ c) :
    ((pollEvents sensors oracle count).buffer.length : Int) ≤ count ∧
    ∀ p ∈ (pollEvents sensors oracle count).consulted, p.2 ≠ 0 := by
  rcases pollEvents_drain_fields sensors oracle count with ⟨hb, hc⟩ | ⟨r, _, hb, hc⟩
  · rw [hb, hc]
    simp [h0]
  · rw [hb, hc]
    have hsum := drainLoop_length_add_remaining sensors r (List.range numSensorDrivers) count
    have hpos := drainLoop_remaining_nonneg sensors r (List.range numSensorDrivers) count h0 hread
    exact ⟨by omega, drainLoop_consulted_nonzero sensors r (List.range numSensorDrivers) count⟩

/-- C6 witness: demo context (each driver returns at most one record, never
more than asked), one ready `poll`, capacity 3. -/
theorem pollEvents_capacity_bound_witness :
    ((pollEvents demoCtx [PollResult.ok demoReady] 3).buffer.length : Int) ≤ 3 ∧
    ∀ p ∈ (pollEvents demoCtx [PollResult.ok demoReady] 3).consulted, p.2 ≠ 0 :=
  pollEvents_capacity_bound demoCtx [PollResult.ok demoReady] 3 (by decide)
    (by
      intro i s hs c hc
      have : s = demoHub ∨ s = demoAkm := by
        by_cases h0 : i = 0
        · subst h0; exact Or.inl (by simpa [demoCtx, mkPollContext, accelgyromag] using hs.symm)
        · by_cases h1 : i = 1
          · subst h1; exact Or.inr (by simpa [demoCtx, mkPollContext, accelgyromag, akm] using hs.symm)
          · exact absurd hs (by simp [demoCtx, mkPollContext, accelgyromag, akm, h0, h1])
      rcases this with h | h <;> subst h <;>
        by_cases hc1 : (1 : Int) ≤ c <;>
        simp [demoHub, demoAkm, hc1] <;> omega)

/-- C1 counterexample: with the `AkmSensor` slot absent (its allocation
failed), activating the magnetometer does not fail with an error code — the
call dereferences the null slot (undefined behavior, modelled as `none`)
instead of returning an error. -/
theorem absent_source_not_error_cex : activate ctxNoAkm ID_M 1 = none := by
  decide

/-- C1 amended: the constructor does leave a failed source's slot null and
completes, but an operation routed to the absent slot does not fail with an
error: `activate` and `setDelay` dereference the null slot (undefined
behavior, modelled as `none`), and so does the drain step of `pollEvents`
as soon as it reaches the absent slot with nonzero remaining capacity. -/
theorem absent_source_dereferences_null (ho ha : Option SensorModel)
    (sensors : Nat → Option SensorModel) (handle enabled ns : Int) (i : Nat)
    (revents : Nat → Bool) (rest : List Nat) (count : Int)
    (hd : 0 ≤ handleToDriver handle)
    (habs : sensors (handleToDriver handle).toNat = none)
    (hai : sensors i = none) (hcount : count ≠ 0) :
    mkPollContext ho ha accelgyromag = ho ∧
    mkPollContext ho ha akm = ha ∧
    activate sensors handle enabled = none ∧
    setDelay sensors handle ns = none ∧
    (drainLoop sensors revents (i :: rest) count).crashed = true := by
  refine ⟨by simp [mkPollContext], by simp [mkPollContext, accelgyromag, akm], ?_, ?_, ?_⟩
  · simp only [activate]
    rw [if_neg (by omega), habs]
  · simp only [setDelay]
    rw [if_neg (by omega), habs]
  · rw [drainLoop, if_neg hcount, hai]

/-- C1 amended witness: the context whose `AkmSensor` allocation failed. -/
theorem absent_source_dereferences_null_witness :
    mkPollContext (some demoHub) none accelgyromag = some demoHub ∧
    mkPollContext (some demoHub) none akm = none ∧
    activate ctxNoAkm ID_M 1 = none ∧
    setDelay ctxNoAkm ID_M 5 = none ∧
    (drainLoop ctxNoAkm demoReady (akm :: []) 3).crashed = true :=
  absent_source_dereferences_null (some demoHub) none ctxNoAkm ID_M 1 5 akm
    demoReady [] 3 (by decide) rfl rfl (by decide)
